import Mathlib

/-!
Verification of the sify-sdk auto-instrumentation core against its design
specification.  The Python sources under
`sify/aiplatform/observability/openTelemetry/` are shallowly embedded:

* `should_trace` embeds `utils/trace_decision.py` (rule-based trace gating),
  with `fnmatch`/`globMatch` embedding the POSIX shell-glob semantics of the
  stdlib `fnmatch.fnmatch` used there;
* `function_wrapper` embeds the `wrapper` closure of
  `auto/function_instrumentor.py::instrument_function` (lines 29-101);
* `telemetryEnvelope` embeds the shared success/error template that appears
  verbatim both inside that wrapper (lines 43-98) and as
  `auto/decorators.py::_execute_with_telemetry` (lines 19-80);
* `class_wrapper` embeds the per-method `wrapper` closure of
  `auto/class_instrumentor.py::instrument_class` (lines 42-204);
* `instrument_class`/`collector_instrument_function` embed the idempotency
  marker logic (`_telemetry_instrumented`, `__wrapped_by_sdk__`);
* `sdk_sync_wrapper`/`sdk_async_wrapper` embed the two wrapper shapes of
  `auto/sify_sdk_instrumentor.py::SifySDKInstrumentor.instrument_class`.

Telemetry emission is modelled as an explicit event trace (`Event`), and the
wrapped callable behaviour by its outcome `Except PyExc α` (normal return or
raised exception).  Sink components that "raise on every call" are modelled by
`Comp.raising e`.  Wall-clock durations, being pure payload, are elided from
event payloads; control flow never depends on them in the source.
-/

namespace Sify

/-- A Python exception, identified by its type name and message. -/
structure PyExc where
  ty : String
  msg : String
deriving DecidableEq, Repr

/-! ### Shell-glob matching (stdlib `fnmatch.fnmatch` on POSIX)

`trace_decision.py` filters method names with `fnmatch.fnmatch(method, p)`.
On POSIX `os.path.normcase` is the identity, so this is case-sensitive glob
matching with `*`, `?` and `[...]` character classes (leading `!` negates,
a `]` directly after the opening bracket is literal, an unterminated `[` is
literal). -/

/-- Match a character against the body of a `[...]` class, with `a-b` ranges. -/
def classMatch : List Char → Char → Bool
  | [], _ => false
  | [a], c => a == c
  | a :: '-' :: b :: rest, c =>
      (decide (a ≤ c) && decide (c ≤ b)) || classMatch rest c
  | a :: rest, c => (a == c) || classMatch rest c

/-- Scan for the closing `]` of a character class; returns the class body and
the remaining pattern, or `none` when the class is unterminated. -/
def takeClassAux : List Char → List Char → Option (List Char × List Char)
  | _, [] => none
  | acc, ']' :: rest => some (acc.reverse, rest)
  | acc, c :: rest => takeClassAux (c :: acc) rest

/-- Parse a character class (the part after `[`): optional `!` negation, then
a body in which a leading `]` is literal. -/
def takeClass (cs : List Char) : Option (Bool × List Char × List Char) :=
  match cs with
  | '!' :: rest =>
      (match rest with
       | ']' :: rest2 => takeClassAux [']'] rest2
       | _ => takeClassAux [] rest).map (fun (p : List Char × List Char) => (true, p.1, p.2))
  | ']' :: rest =>
      (takeClassAux [']'] rest).map (fun (p : List Char × List Char) => (false, p.1, p.2))
  | _ => (takeClassAux [] cs).map (fun (p : List Char × List Char) => (false, p.1, p.2))

/-- Fuelled glob matcher: `globMatchFuel fuel pat name`.  Every recursive call
strictly shrinks `pat.length + name.length`, so the fuel supplied by
`globMatch` below can never run out; fuel only serves structural recursion. -/
def globMatchFuel : Nat → List Char → List Char → Bool
  | 0, _, _ => false
  | _ + 1, [], [] => true
  | _ + 1, [], _ :: _ => false
  | fuel + 1, '*' :: ps, [] => globMatchFuel fuel ps []
  | fuel + 1, '*' :: ps, c :: cs =>
      globMatchFuel fuel ps (c :: cs) || globMatchFuel fuel ('*' :: ps) cs
  | fuel + 1, '?' :: ps, _ :: cs => globMatchFuel fuel ps cs
  | _ + 1, '?' :: _, [] => false
  | fuel + 1, '[' :: ps, cs =>
      match takeClass ps with
      | none =>
          match cs with
          | [] => false
          | c :: cs2 => (c == '[') && globMatchFuel fuel ps cs2
      | some (neg, cls, rest) =>
          match cs with
          | [] => false
          | c :: cs2 => (classMatch cls c != neg) && globMatchFuel fuel rest cs2
  | fuel + 1, p :: ps, c :: cs => (p == c) && globMatchFuel fuel ps cs
  | _ + 1, _ :: _, [] => false

/-- Glob matching on character lists (pattern first). -/
def globMatch (ps cs : List Char) : Bool :=
  globMatchFuel (ps.length + cs.length + 1) ps cs

/-- `fnmatch name pat`: stdlib `fnmatch.fnmatch(name, pat)` on POSIX. -/
def fnmatch (name pat : String) : Bool :=
  globMatch pat.toList name.toList

/-! ### Telemetry sink model

The `TelemetryCollector` object that reaches the wrappers exposes `traces`,
`metrics` and `logs` components plus the `enable_traces` flag and `trace_rules`
mapping read by `should_trace`.  A component either services every call or
raises its own backend exception on every call (`Comp.raising`). -/

/-- Behaviour of a sink component: every call succeeds, or every call raises. -/
inductive Comp where
  | ok
  | raising (e : PyExc)
deriving DecidableEq, Repr

/-- Shape of the `traces` attribute, distinguishing the checks
`hasattr(tele, "traces") and hasattr(tele.traces, "tracer")`
(function instrumentor) and `getattr(tele, "traces", None)` (class
instrumentor): the attribute may be absent, present without a `tracer`,
or present with a working tracer. -/
inductive TracesAttr where
  | absent
  | noTracer
  | tracer
deriving DecidableEq, Repr

/-- Per-layer rule dict: `include_methods` / `exclude_methods` keys, each
either absent/`None` (modelled `none`) or a list of glob patterns. -/
structure LayerRules where
  include_methods : Option (List String)
  exclude_methods : Option (List String)
deriving DecidableEq, Repr

/-- The telemetry object as seen by the wrappers and by `should_trace`. -/
structure Telemetry where
  traces : TracesAttr
  metrics : Comp
  logs : Comp
  enable_traces : Bool
  trace_rules : Option (List (String × LayerRules))
deriving DecidableEq, Repr

/-- The `ctx` dict built by callers of `should_trace`:
`ctx.get("layer")` and `ctx.get("method", "")`. -/
structure TraceCtx where
  layer : Option String
  method : String
deriving DecidableEq, Repr

/-- `trace_rules.get(layer)`: association-list lookup. -/
def lookupLayer : List (String × LayerRules) → String → Option LayerRules
  | [], _ => none
  | (k, v) :: rest, l => if k = l then some v else lookupLayer rest l

/-- Python truthiness of the per-layer rules dict (`if not layer_rules`):
the dict is truthy when it has at least one of its keys. -/
def layerRulesTruthy (lr : LayerRules) : Bool :=
  lr.include_methods.isSome || lr.exclude_methods.isSome

/-- The include gate of `trace_decision.py` lines 26-29: when
`include_methods` is present and non-empty (Python truthy), the method must
match at least one pattern. -/
def inclCheck (lr : LayerRules) (method : String) : Bool :=
  match lr.include_methods with
  | none => true
  | some pats => if pats = [] then true else pats.any (fun p => fnmatch method p)

/-- The exclude gate of `trace_decision.py` lines 31-33:
`layer_rules.get("exclude_methods", [])` matched against the method. -/
def exclCheck (lr : LayerRules) (method : String) : Bool :=
  (lr.exclude_methods.getD []).any (fun p => fnmatch method p)

/-- Embedding of `utils/trace_decision.py::should_trace` (lines 4-36). -/
def should_trace (telemetry : Telemetry) (ctx : TraceCtx) : Bool :=
  if telemetry.enable_traces = false then false
  else
    match telemetry.trace_rules with
    | none => true
    | some rules =>
      if rules = [] then true
      else
        match ctx.layer with
        | none => true
        | some layer =>
          match lookupLayer rules layer with
          | none => true
          | some lr =>
            if layerRulesTruthy lr = false then true
            else if layer = "business" then
              if inclCheck lr ctx.method = false then false
              else if exclCheck lr ctx.method = true then false
              else true
            else true

/-! ### Telemetry event traces

Each observable telemetry side effect becomes an event.  `internalDebug`
models the instrumentation module own `logger.debug(...)` diagnostics and
`pyLog` the plain-Python-logger fallback of the SDK instrumentor; neither goes
through the telemetry sink. -/

/-- One telemetry side effect.  Numeric payloads (durations, timestamps) are
elided: the source never branches on them. -/
inductive Event where
  | spanStart (name : String)
  | spanSetAttr (key : String)
  | spanRecordException (excType : String)
  | spanSetStatusError
  | counterInc (name : String) (value : Nat) (attrs : List (String × String))
  | histRecord (name : String) (attrs : List (String × String))
  | logEmit (level : String) (msg : String)
  | internalDebug (msg : String)
  | pyLog (msg : String)
deriving DecidableEq, Repr

/-- Base attributes built by `instrument_function` (lines 35-40). -/
def fnBaseAttrs (fnName fnModule : String) : List (String × String) :=
  [("code.function", fnName), ("code.module", fnModule),
   ("telemetry.kind", "function"), ("telemetry.sdk", "custom-python-sdk")]

/-- Attributes attached to the error-path metrics/logs of the envelope. -/
def envErrorAttrs (base : List (String × String)) (e : PyExc) :
    List (String × String) :=
  base ++ [("outcome", "error"), ("exception.type", e.ty)]

/-- The `except Exception` handler shared by
`function_instrumentor.py` lines 72-98 and `decorators.py` lines 53-80.
`evs` are the events already emitted inside the `try`; `e` is the caught
exception.  The span operations succeed (the tracer is working on this path);
the metric and log calls have NO local failure boundary, so a raising
component exception replaces the in-flight one and propagates to the
caller. -/
def envelopeHandler {α : Type} (t : Telemetry) (spanName : String)
    (base : List (String × String)) (evs : List Event) (e : PyExc) :
    Except PyExc α × List Event :=
  let evs := evs ++ [Event.spanRecordException e.ty, Event.spanSetStatusError]
  match t.metrics with
  | .raising me => (.error me, evs)
  | .ok =>
    let evs := evs ++
      [Event.counterInc (spanName ++ ".calls") 1 (envErrorAttrs base e),
       Event.histRecord (spanName ++ ".duration_ms") (envErrorAttrs base e)]
    match t.logs with
    | .raising le => (.error le, evs)
    | .ok =>
      (.error e, evs ++ [Event.logEmit "error" ("Error in " ++ spanName)])

/-- The span + metrics + logs template executed when a tracer is available:
`function_instrumentor.py` lines 47-98, textually repeated as
`decorators.py::_execute_with_telemetry` lines 27-80.  `fnOut` is the outcome
of the wrapped call.  On the success path the metric and log calls sit inside
the same `try`, so a raising component diverts control into the handler. -/
def telemetryEnvelope {α : Type} (t : Telemetry) (spanName : String)
    (base : List (String × String)) (fnOut : Except PyExc α) :
    Except PyExc α × List Event :=
  let evs := [Event.spanStart spanName] ++ base.map (fun kv => Event.spanSetAttr kv.1)
  match fnOut with
  | .error e => envelopeHandler t spanName base evs e
  | .ok r =>
    let evs := evs ++ [Event.spanSetAttr "duration_ms"]
    match t.metrics with
    | .raising me => envelopeHandler t spanName base evs me
    | .ok =>
      let sAttrs := base ++ [("outcome", "success")]
      let evs := evs ++
        [Event.counterInc (spanName ++ ".calls") 1 sAttrs,
         Event.histRecord (spanName ++ ".duration_ms") sAttrs]
      match t.logs with
      | .raising le => envelopeHandler t spanName base evs le
      | .ok =>
        (.ok r, evs ++ [Event.logEmit "info" (spanName ++ " executed successfully")])

/-- Embedding of the `wrapper` closure of
`function_instrumentor.py::instrument_function` (lines 29-101).
`tele` is `getattr(wrapper, "_telemetry", None)`;
`nameOv` is the optional `name` argument of `instrument_function`.
Telemetry runs only when `tele and hasattr(tele, "traces") and
hasattr(tele.traces, "tracer")`; otherwise the original call runs unmodified
(line 101). -/
def function_wrapper {α : Type} (tele : Option Telemetry)
    (fnName fnModule : String) (nameOv : Option String)
    (fnOut : Except PyExc α) : Except PyExc α × List Event :=
  let spanName := "telemetry.function." ++ nameOv.getD fnName
  match tele with
  | some t =>
    if t.traces = .tracer then
      telemetryEnvelope t spanName (fnBaseAttrs fnName fnModule) fnOut
    else (fnOut, [])
  | none => (fnOut, [])

/-! ### Class instrumentation (`class_instrumentor.py`) -/

/-- The `_telemetry` slot of an instance: `none` when the attribute is
missing, `some v` when present with value `v` (`v = none` is Python `None`). -/
structure InstState where
  teleAttr : Option (Option Telemetry)
deriving DecidableEq, Repr

/-- Lines 47-52 of `class_instrumentor.py`: when an instance is present and
has no `_telemetry` attribute, the instrumentation-time telemetry is stored on
it; the instance (possibly updated) is returned. -/
def bindInstance (inst : Option InstState) (telemetry : Option Telemetry) :
    Option InstState :=
  match inst with
  | none => none
  | some i =>
    match i.teleAttr with
    | none => some ⟨some telemetry⟩
    | some _ => some i

/-- Line 52: `tele = instance._telemetry if instance else telemetry`,
after the binding step above. -/
def resolveClassSink (inst : Option InstState) (telemetry : Option Telemetry) :
    Option Telemetry :=
  match bindInstance inst telemetry with
  | some i => i.teleAttr.getD none
  | none => telemetry

/-- Success-path metric labels of the class wrapper (lines 113-119). -/
def classLabels (className mname outcome : String) (userId : Option String) :
    List (String × String) :=
  [("class", className), ("function", mname), ("outcome", outcome)] ++
    (match userId with | some u => [("user.id", u)] | none => [])

/-- Error-path metric labels of the class wrapper (lines 168-175). -/
def classErrorLabels (className mname : String) (e : PyExc)
    (userId : Option String) : List (String × String) :=
  [("class", className), ("function", mname), ("outcome", "error"),
   ("exception.type", e.ty)] ++
    (match userId with | some u => [("user.id", u)] | none => [])

/-- Embedding of the per-method `wrapper` closure of
`class_instrumentor.py::instrument_class` (lines 42-204).

* `telemetry` is the closure-captured instrumentation-time sink; `inst` the
  bound instance (`args[0] if args else None`); `userId` the value of
  `get_user_context()` (a request-scoped context variable, passed explicitly
  here); `hasReqCtx` whether the guarded Flask block (lines 97-103) finds an
  active request (its import/lookup failure path is the silent no-op branch).
* Resolution and gating follow lines 47-72: a `None` sink or a falsy `traces`
  attribute, or a negative `should_trace` decision, run the original
  unmodified.  With a truthy `traces` lacking a `tracer`, line 79
  (`tele.traces.tracer`) raises `AttributeError` to the caller.
* Unlike the function instrumentor, each metrics and logs group here sits in
  its own `try/except` (lines 112-133, 136-151, 167-183, 186-202), so a
  raising component only yields an internal debug record. -/
def class_wrapper {α : Type} (telemetry : Option Telemetry)
    (className mname _modName : String) (userId : Option String)
    (hasReqCtx : Bool) (inst : Option InstState) (fnOut : Except PyExc α) :
    Except PyExc α × List Event :=
  match resolveClassSink inst telemetry with
  | none => (fnOut, [])
  | some tele =>
    if tele.traces = .absent then (fnOut, [])
    else
      let qn := className ++ "." ++ mname
      if should_trace tele ⟨some "business", mname⟩ = false then (fnOut, [])
      else
        match tele.traces with
        | .absent => (fnOut, [])
        | .noTracer => (.error ⟨"AttributeError", "tracer"⟩, [])
        | .tracer =>
          let spanEvs := [Event.spanStart (qn ++ ".Span"),
              Event.spanSetAttr "code.class", Event.spanSetAttr "code.function",
              Event.spanSetAttr "code.module", Event.spanSetAttr "telemetry.kind"]
            ++ (match userId with
                | some _ => [Event.spanSetAttr "user.id"] | none => [])
            ++ (if hasReqCtx then
                  [Event.spanSetAttr "http.method", Event.spanSetAttr "http.route"]
                else [])
          match fnOut with
          | .ok r =>
            let evs := spanEvs ++ [Event.spanSetAttr "duration_ms"]
            let labels := classLabels className mname "success" userId
            let evs := evs ++
              (match tele.metrics with
               | .ok => [Event.counterInc (qn ++ ".calls") 1 labels,
                         Event.histRecord (qn ++ ".duration_ms") labels]
               | .raising _ => [Event.internalDebug "Metric success failed"])
            let evs := evs ++
              (match tele.logs with
               | .ok => [Event.logEmit "info" (qn ++ " executed successfully")]
               | .raising _ => [Event.internalDebug "Log success failed"])
            (.ok r, evs)
          | .error e =>
            let evs := spanEvs ++
              [Event.spanRecordException e.ty, Event.spanSetStatusError]
            let evs := evs ++
              (match tele.metrics with
               | .ok => [Event.counterInc (qn ++ ".calls") 1
                           (classErrorLabels className mname e userId)]
               | .raising _ => [Event.internalDebug "Metric error failed"])
            let evs := evs ++
              (match tele.logs with
               | .ok => [Event.logEmit "error" ("Error in " ++ qn)]
               | .raising _ => [Event.internalDebug "Log error failed"])
            (.error e, evs)

/-! ### Idempotency markers (C4)

`class_instrumentor.py::instrument_class` guards on the class attribute
`_telemetry_instrumented` (lines 27-29) and wraps every public function
member; `collector.py::TelemetryCollector.instrument_function` guards on the
function attribute `__wrapped_by_sdk__` (lines 220-228). -/

/-- A method object, tracking how many class-instrumentation wrappers
surround the underlying code. -/
inductive MethodCode where
  | base (id : Nat)
  | classWrapped (telemetry : Option Telemetry) (inner : MethodCode)
deriving DecidableEq, Repr

/-- Number of class-instrumentation layers around a method. -/
def wrapDepth : MethodCode → Nat
  | .base _ => 0
  | .classWrapped _ m => wrapDepth m + 1

/-- A class object: the `_telemetry_instrumented` marker
(`getattr(cls, "_telemetry_instrumented", False)`) and its function members
(in `inspect.getmembers` order). -/
structure PyClassT where
  instrumented : Bool
  methods : List (String × MethodCode)
deriving DecidableEq, Repr

/-- `method.__name__.startswith("_")`: the private-member test. -/
def isPrivateName (s : String) : Bool :=
  match s.toList with
  | [] => false
  | c :: _ => c == '_'

/-- Lines 33-208: wrap every member whose name does not start with `_`,
closing over the instrumentation-time telemetry. -/
def wrapMethods (telemetry : Option Telemetry)
    (ms : List (String × MethodCode)) : List (String × MethodCode) :=
  ms.map (fun nm =>
    if isPrivateName nm.1 then nm else (nm.1, .classWrapped telemetry nm.2))

/-- Embedding of `class_instrumentor.py::instrument_class` (lines 14-211)
at the method-table level: return the class unchanged when already marked,
otherwise set the marker and wrap all public methods in place. -/
def instrument_class (cls : PyClassT) (telemetry : Option Telemetry) :
    PyClassT :=
  if cls.instrumented then cls
  else { instrumented := true, methods := wrapMethods telemetry cls.methods }

/-- A function object as handled by `TelemetryCollector.instrument_function`:
underlying code, the `__wrapped_by_sdk__` marker, and the `_telemetry`
attribute set by `FunctionInstrumentor.instrument`. -/
structure FnObj where
  code : MethodCode
  sdkWrapped : Bool
  teleAttr : Option Telemetry
deriving DecidableEq, Repr

/-- Embedding of `collector.py::TelemetryCollector.instrument_function`
(lines 213-244): an already-marked function is returned as-is; otherwise
`FunctionInstrumentor.instrument` wraps it, binds the collector as its
`_telemetry`, and the marker is set on the new wrapper. -/
def collector_instrument_function (collector : Telemetry) (f : FnObj) : FnObj :=
  if f.sdkWrapped then f
  else { code := .classWrapped (some collector) f.code,
         sdkWrapped := true, teleAttr := some collector }

/-! ### Callable identity metadata (C7)

Every wrapping strategy builds a fresh `wrapper`/`async_wrapper` closure and
passes it through `functools.wraps(orig)`, which copies `__name__`,
`__module__`, `__qualname__` and `__doc__` from the original and sets
`__wrapped__` (which `inspect.signature` follows). -/

/-- The identity metadata of a callable observed by external code. -/
structure FnMeta where
  name : String
  modName : String
  qualname : String
  doc : Option String
  signature : String
deriving DecidableEq, Repr

/-- A callable object: its current attribute values and its `__wrapped__`
chain. -/
inductive PyCallable where
  | mk (meta : FnMeta) (wrappedAttr : Option PyCallable)

/-- Current metadata attributes of a callable. -/
def PyCallable.meta : PyCallable → FnMeta
  | .mk m _ => m

/-- `functools.wraps(orig)(wrapper)`: copy the identity attributes of `orig`
onto `wrapper` and point `__wrapped__` at `orig`. -/
def functoolsWraps (orig _wrapper : PyCallable) : PyCallable :=
  .mk orig.meta (some orig)

/-- `inspect.signature` follows the `__wrapped__` chain to the innermost
callable. -/
def observedSignature : PyCallable → String
  | .mk m none => m.signature
  | .mk _ (some inner) => observedSignature inner

/-- Raw metadata of a freshly defined local wrapper closure, before
`functools.wraps` runs (its own name, enclosing module, generic signature). -/
def rawWrapperMeta (wrapperName inModule : String) : FnMeta :=
  ⟨wrapperName, inModule, wrapperName, none, "(*args, **kwargs)"⟩

/-- The replacement produced by `instrument_function` callable (function_instrumentor.py
lines 28-29): a fresh `wrapper` with `functools.wraps(fn)` applied. -/
def instrument_function_callable (fn : PyCallable) : PyCallable :=
  functoolsWraps fn
    (.mk (rawWrapperMeta "wrapper"
      "sify.aiplatform.observability.openTelemetry.auto.function_instrumentor") none)

/-- The per-method replacement of `instrument_class` (class_instrumentor.py
lines 40-42): `make_wrapper(orig_fn)` returns `functools.wraps(orig_fn)`
applied to a fresh `wrapper`. -/
def class_make_wrapper_callable (origFn : PyCallable) : PyCallable :=
  functoolsWraps origFn
    (.mk (rawWrapperMeta "wrapper"
      "sify.aiplatform.observability.openTelemetry.auto.class_instrumentor") none)

/-- The replacement of `SifySDKInstrumentor.instrument_class`
(sify_sdk_instrumentor.py lines 168-169 and 218-219):
`functools.wraps(orig)(async_wrapper)` resp. `functools.wraps(orig)(wrapper)`
(the `_sify_wrapped` marker is set on the closure `__dict__`, which
`functools.wraps` merges rather than overwrites). -/
def sdk_make_wrapper_callable (isAsync : Bool) (orig : PyCallable) : PyCallable :=
  functoolsWraps orig
    (.mk (rawWrapperMeta (if isAsync then "async_wrapper" else "wrapper")
      "sify.aiplatform.observability.openTelemetry.auto.sify_sdk_instrumentor") none)

/-! ### SDK self-instrumentation (`sify_sdk_instrumentor.py`) -/

/-- `SifySDKInstrumentor._get_tracer` (lines 31-43): the sink tracer when the
telemetry has a `traces.tracer`; any lookup error (including a `traces`
object without `tracer`) falls through to the global tracer, whose
availability is the `globalTracer` parameter. -/
def sdkTracerAvailable (tele : Option Telemetry) (globalTracer : Bool) : Bool :=
  match tele with
  | some t => if t.traces = .tracer then true else globalTracer
  | none => globalTracer

/-- `SifySDKInstrumentor._increment_counter` (lines 48-54): emit through the
sink when telemetry is present; a raising metrics component is caught and
logged at debug severity. -/
def sdkCounterEvents (tele : Option Telemetry) (name : String)
    (attrs : List (String × String)) : List Event :=
  match tele with
  | none => []
  | some t =>
    match t.metrics with
    | .ok => [Event.counterInc name 1 attrs]
    | .raising _ => [Event.internalDebug ("Counter metric failed: " ++ name)]

/-- `SifySDKInstrumentor._record_histogram` (lines 56-62). -/
def sdkHistEvents (tele : Option Telemetry) (name : String)
    (attrs : List (String × String)) : List Event :=
  match tele with
  | none => []
  | some t =>
    match t.metrics with
    | .ok => [Event.histRecord name attrs]
    | .raising _ => [Event.internalDebug ("Histogram metric failed: " ++ name)]

/-- `SifySDKInstrumentor._emit_log` (lines 67-89): prefer the sink logs
component; on absence or failure fall back to the plain Python logger
`sify.sdk` (which always logs at info level, line 89). -/
def sdkLogEvents (tele : Option Telemetry) (level msg : String) : List Event :=
  match tele with
  | none => [Event.pyLog msg]
  | some t =>
    match t.logs with
    | .ok => [Event.logEmit level msg]
    | .raising _ => [Event.internalDebug "telemetry.logs failed", Event.pyLog msg]

/-- Metric-name base computed by the loop of
`SifySDKInstrumentor.instrument_class` (lines 109-110). -/
def sdkBaseName (pfx : Option String) (clsName mname : String) : String :=
  (match pfx with | some p => p ++ "." | none => "") ++ clsName ++ "." ++ mname

/-- The method names actually wrapped by the loop of
`SifySDKInstrumentor.instrument_class` (lines 99-104): members whose name
does not start with `_` and which do not already carry the `_sify_wrapped`
marker.  `members` lists `inspect.getmembers(cls, inspect.isfunction)`
entries in its sorted-by-name order, paired with their marker. -/
def sdkWrappedNames (members : List (String × Bool)) : List String :=
  (members.filter (fun nb => !isPrivateName nb.1 && !nb.2)).map (fun nb => nb.1)

/-- The values held by the loop variables `counter_name`, `error_counter` and
`histogram_name` when a wrapper runs.  `make_wrapper` freezes only `orig` and
`mname` as default arguments (line 118); the three metric names stay free
variables of the `instrument_class` frame and are read at call time, when
they hold the values computed in the LAST loop iteration — the alphabetically
last wrapped method.  `none` when the loop wrapped nothing. -/
def sdkLoopNames (pfx : Option String) (clsName : String)
    (wrapped : List String) : Option (String × String × String) :=
  wrapped.getLast?.map (fun last =>
    (sdkBaseName pfx clsName last ++ ".calls",
     sdkBaseName pfx clsName last ++ ".errors",
     sdkBaseName pfx clsName last ++ ".duration_ms"))

/-- The `finally` block shared by both SDK wrappers (lines 150-166 and
200-216): calls counter, error counter when the invocation failed, duration
histogram, then exactly one log emission. -/
def sdkFinallyEvents (tele : Option Telemetry) (counterName errorCounter
    histName : String) (baseAttrs : List (String × String)) (success : Bool)
    (mname : String) : List Event :=
  sdkCounterEvents tele counterName baseAttrs
    ++ (if success then [] else sdkCounterEvents tele errorCounter baseAttrs)
    ++ sdkHistEvents tele histName baseAttrs
    ++ sdkLogEvents tele (if success then "info" else "error")
        (mname ++ " executed")

/-- Embedding of the synchronous `wrapper` of
`SifySDKInstrumentor.instrument_class` (lines 173-219).  `counterName`,
`errorCounter` and `histName` are the late-bound loop variables
`counter_name`/`error_counter`/`histogram_name` as the wrapper reads them at
call time (see `sdkLoopNames`); only the class name and `mname` are frozen
into the closure.  The try/except/finally shape means the finally events are
appended once whatever the outcome, and the original exception is
re-raised. -/
def sdk_sync_wrapper {α : Type} (tele : Option Telemetry) (globalTracer : Bool)
    (clsName mname : String) (counterName errorCounter histName : String)
    (fnOut : Except PyExc α) : Except PyExc α × List Event :=
  let tracerAvail := sdkTracerAvailable tele globalTracer
  let spanEvs := if tracerAvail then
      [Event.spanStart (clsName ++ "." ++ mname),
       Event.spanSetAttr "sify.class", Event.spanSetAttr "sify.method"]
    else []
  let excEvs := match fnOut with
    | .ok _ => ([] : List Event)
    | .error e =>
      if tracerAvail then
        [Event.spanRecordException e.ty, Event.spanSetStatusError]
      else []
  let success := match fnOut with | .ok _ => true | .error _ => false
  let baseAttrs := [("class", clsName), ("method", mname),
    ("success", if success then "True" else "False")]
  (fnOut, spanEvs ++ excEvs ++
    sdkFinallyEvents tele counterName errorCounter histName baseAttrs success mname)

/-- Embedding of the asynchronous `async_wrapper` of
`SifySDKInstrumentor.instrument_class` (lines 123-166).  The body duplicates
the synchronous wrapper shape line for line — including the late-bound
metric-name variables; awaiting the inner coroutine does not change the
state-passing semantics, so the embedding differs from `sdk_sync_wrapper`
only in which source lines it stands for. -/
def sdk_async_wrapper {α : Type} (tele : Option Telemetry) (globalTracer : Bool)
    (clsName mname : String) (counterName errorCounter histName : String)
    (fnOut : Except PyExc α) : Except PyExc α × List Event :=
  let tracerAvail := sdkTracerAvailable tele globalTracer
  let spanEvs := if tracerAvail then
      [Event.spanStart (clsName ++ "." ++ mname),
       Event.spanSetAttr "sify.class", Event.spanSetAttr "sify.method"]
    else []
  let excEvs := match fnOut with
    | .ok _ => ([] : List Event)
    | .error e =>
      if tracerAvail then
        [Event.spanRecordException e.ty, Event.spanSetStatusError]
      else []
  let success := match fnOut with | .ok _ => true | .error _ => false
  let baseAttrs := [("class", clsName), ("method", mname),
    ("success", if success then "True" else "False")]
  (fnOut, spanEvs ++ excEvs ++
    sdkFinallyEvents tele counterName errorCounter histName baseAttrs success mname)

/-- Call-time behaviour of the wrapper that
`SifySDKInstrumentor.instrument_class` installed for method `mname` of class
`clsName`, whose function members are `members`: the wrapper body runs with
the late-bound metric names of the last loop iteration (`sdkLoopNames`).
When the loop wrapped nothing, no wrapper exists and the call is the plain
original. -/
def sdk_instrumented_call {α : Type} (isAsync : Bool) (tele : Option Telemetry)
    (globalTracer : Bool) (clsName : String) (members : List (String × Bool))
    (pfx : Option String) (mname : String) (fnOut : Except PyExc α) :
    Except PyExc α × List Event :=
  match sdkLoopNames pfx clsName (sdkWrappedNames members) with
  | some (c, e, h) =>
      if isAsync then sdk_async_wrapper tele globalTracer clsName mname c e h fnOut
      else sdk_sync_wrapper tele globalTracer clsName mname c e h fnOut
  | none => (fnOut, [])

/-! ### Event-counting observables used by the claims -/

/-- Number of counter-increment events carrying the given metric name. -/
def countInc (name : String) (evs : List Event) : Nat :=
  (evs.filter (fun e =>
    match e with
    | .counterInc n _ _ => n == name
    | _ => false)).length

/-- Number of counter-increment events carrying the given metric name and an
`outcome=error` attribute. -/
def countErrorInc (name : String) (evs : List Event) : Nat :=
  (evs.filter (fun e =>
    match e with
    | .counterInc n _ attrs =>
        n == name && attrs.any (fun kv => kv.1 == "outcome" && kv.2 == "error")
    | _ => false)).length

/-- Number of histogram-record events carrying the given metric name. -/
def countHist (name : String) (evs : List Event) : Nat :=
  (evs.filter (fun e =>
    match e with
    | .histRecord n _ => n == name
    | _ => false)).length

/-- Number of log emissions (sink logs or fallback Python logs). -/
def countLogs (evs : List Event) : Nat :=
  (evs.filter (fun e =>
    match e with
    | .logEmit _ _ => true
    | .pyLog _ => true
    | _ => false)).length

/-- Specification model, not from the source: the four-tier sink resolution
algorithm described by claim C9 (spec section 4.1): (1) sink attached to the
owning instance when present and non-null, (2) sink attached to the callable,
(3) sink attached to an inner wrapped callable, (4) the process-wide default
sink; `none` only when all four tiers fail.  Kept solely to compare against
the resolution the source actually performs. -/
def resolveSinkSpec (instanceSink : Option (Option Telemetry))
    (callableSink innerSink defaultSink : Option Telemetry) : Option Telemetry :=
  match instanceSink with
  | some (some t) => some t
  | _ =>
    match callableSink with
    | some t => some t
    | none =>
      match innerSink with
      | some t => some t
      | none => defaultSink

/-! ## Claim theorems -/

/-- C1: the claim says that under a sink whose metrics component raises on
every call, a function wrapped by `instrument_function` still returns `42`
(resp. re-raises `ValueError("x")`), each telemetry sub-operation having its
own failure boundary.  The code has no such boundaries: evaluated at exactly
that input, the wrapper raises the metrics backend exception instead of
returning `42`, replaces the original `ValueError("x")` by the metrics
backend exception, and emits no log — contradicting both the claim and the
module documentation in `function_instrumentor.py` ("never crashes even if
OTEL or your collector is misconfigured", "All failures are logged at debug
level, with no impact on application behavior"). -/
theorem C1_metrics_failure_breaks_envelope :
    (function_wrapper
        (some ⟨.tracer, .raising ⟨"MetricsBoom", "down"⟩, .ok, true, none⟩)
        "f" "mod" none (.ok (42 : Int))).1
      = .error ⟨"MetricsBoom", "down"⟩ ∧
    (function_wrapper
        (some ⟨.tracer, .raising ⟨"MetricsBoom", "down"⟩, .ok, true, none⟩)
        "f" "mod" none (.error ⟨"ValueError", "x"⟩ : Except PyExc Int)).1
      = .error ⟨"MetricsBoom", "down"⟩ ∧
    countLogs (function_wrapper
        (some ⟨.tracer, .raising ⟨"MetricsBoom", "down"⟩, .ok, true, none⟩)
        "f" "mod" none (.ok (42 : Int))).2 = 0 :=
  ⟨rfl, rfl, rfl⟩

/-- C2 counterexample: the claim says that for every layer that has rules,
a call is traced only if the member name matches no exclude pattern.  For the
layer `"framework"` with an exclude rule `get_*`, the method `get_user`
matches the exclude pattern yet `should_trace` returns `true`, because the
code applies include/exclude filtering only to the `"business"` layer. -/
theorem C2_counterexample_nonbusiness_layer :
    should_trace
      ⟨.tracer, .ok, .ok, true, some [("framework", ⟨none, some ["get_*"]⟩)]⟩
      ⟨some "framework", "get_user"⟩ = true ∧
    exclCheck ⟨none, some ["get_*"]⟩ "get_user" = true := by
  decide

/-- C2 (amended): `should_trace` returns false immediately when tracing is
globally disabled; returns true when no rules are configured or no rule
exists for the layer of the context; for a layer that has rules but is not
`"business"`, it always traces; and only for the `"business"` layer does it
trace exactly when the method passes the include gate and matches no exclude
pattern, exclude taking precedence over include. -/
theorem C2_amended_business_only_filtering :
    (∀ t ctx, t.enable_traces = false → should_trace t ctx = false) ∧
    (∀ t ctx, t.enable_traces = true →
      (t.trace_rules = none ∨ t.trace_rules = some []) →
      should_trace t ctx = true) ∧
    (∀ t ctx rules, t.enable_traces = true → t.trace_rules = some rules →
      (match ctx.layer with
       | none => True
       | some l => lookupLayer rules l = none) →
      should_trace t ctx = true) ∧
    (∀ t ctx rules layer lr, t.enable_traces = true →
      t.trace_rules = some rules → rules ≠ [] → ctx.layer = some layer →
      lookupLayer rules layer = some lr → layer ≠ "business" →
      should_trace t ctx = true) ∧
    (∀ t ctx rules lr, t.enable_traces = true →
      t.trace_rules = some rules → rules ≠ [] →
      ctx.layer = some "business" → lookupLayer rules "business" = some lr →
      layerRulesTruthy lr = true →
      should_trace t ctx = (inclCheck lr ctx.method && !exclCheck lr ctx.method)) := by
  refine ⟨?_, ?_, ?_, ?_, ?_⟩
  · intro t ctx h
    simp [should_trace, h]
  · intro t ctx h hr
    rcases hr with hr | hr <;> simp [should_trace, h, hr]
  · intro t ctx rules h hr hl
    cases hctx : ctx.layer with
    | none => simp [should_trace, h, hr, hctx]
    | some l =>
      rw [hctx] at hl
      by_cases hre : rules = [] <;> simp [should_trace, h, hr, hctx, hl, hre]
  · intro t ctx rules layer lr h hr hre hctx hlk hlay
    by_cases htr : layerRulesTruthy lr = false <;>
      simp [should_trace, h, hr, hre, hctx, hlk, htr, hlay]
  · intro t ctx rules lr h hr hre hctx hlk htr
    by_cases hinc : inclCheck lr ctx.method = false <;>
      by_cases hexc : exclCheck lr ctx.method = true <;>
      simp_all [should_trace, h, hr, hre, hctx, hlk, htr]

/-- C2 amended witness: the non-business conjunct at a concrete input. -/
theorem C2_amended_business_only_filtering_witness :
    should_trace
      ⟨.tracer, .ok, .ok, true, some [("framework", ⟨none, some ["get_*"]⟩)]⟩
      ⟨some "framework", "get_user"⟩ = true :=
  C2_amended_business_only_filtering.2.2.2.1
    ⟨.tracer, .ok, .ok, true, some [("framework", ⟨none, some ["get_*"]⟩)]⟩
    ⟨some "framework", "get_user"⟩
    [("framework", ⟨none, some ["get_*"]⟩)] "framework" ⟨none, some ["get_*"]⟩
    rfl rfl (by decide) rfl (by decide) (by decide)

/-- C3: with rules `{"business": {"exclude_methods": ["get_*"]}}` and tracing
enabled, `should_trace` returns false for the business-layer method
`get_user` and true for `create_user`; and for every rule set and context it
returns false whenever tracing is disabled. -/
theorem C3_rule_evaluator_examples :
    should_trace
      ⟨.tracer, .ok, .ok, true, some [("business", ⟨none, some ["get_*"]⟩)]⟩
      ⟨some "business", "get_user"⟩ = false ∧
    should_trace
      ⟨.tracer, .ok, .ok, true, some [("business", ⟨none, some ["get_*"]⟩)]⟩
      ⟨some "business", "create_user"⟩ = true ∧
    ∀ t ctx, t.enable_traces = false → should_trace t ctx = false :=
  ⟨by decide, by decide, fun t ctx h => by simp [should_trace, h]⟩

/-- C3 witness: the disabled-tracing conjunct at a concrete input. -/
theorem C3_rule_evaluator_examples_witness :
    should_trace ⟨.tracer, .ok, .ok, false,
      some [("business", ⟨none, some ["get_*"]⟩)]⟩ ⟨some "business", "x"⟩ = false :=
  C3_rule_evaluator_examples.2.2 _ _ rfl

/-- C4: wrapping is idempotent.  `instrument_class` applied twice equals
`instrument_class` applied once (the `_telemetry_instrumented` marker makes
the second call a no-op), a single instrumentation of an unmarked class wraps
every public method exactly once (wrap depth grows by exactly one), and
`TelemetryCollector.instrument_function` applied to an already-wrapped
function returns that same object. -/
theorem C4_wrapping_idempotent :
    (∀ cls telemetry, instrument_class (instrument_class cls telemetry) telemetry
        = instrument_class cls telemetry) ∧
    (∀ cls telemetry nm, cls.instrumented = false →
        nm ∈ (instrument_class cls telemetry).methods →
        isPrivateName nm.1 = false →
        ∃ m0, (nm.1, m0) ∈ cls.methods ∧
          nm.2 = MethodCode.classWrapped telemetry m0 ∧
          wrapDepth nm.2 = wrapDepth m0 + 1) ∧
    (∀ collector f, collector_instrument_function collector
        (collector_instrument_function collector f)
        = collector_instrument_function collector f) := by
  refine ⟨?_, ?_, ?_⟩
  · intro cls telemetry
    by_cases h : cls.instrumented <;> simp [instrument_class, h]
  · intro cls telemetry nm hinst hmem hpub
    simp [instrument_class, hinst, wrapMethods, List.mem_map] at hmem
    obtain ⟨a, b, hab, hwrap⟩ := hmem
    by_cases hp : isPrivateName a = true
    · rw [if_pos hp] at hwrap
      rw [← hwrap] at hpub
      simp only at hpub
      rw [hp] at hpub
      exact absurd hpub (by decide)
    · rw [if_neg hp] at hwrap
      refine ⟨b, ?_, ?_, ?_⟩
      · rw [← hwrap]
        simpa using hab
      · rw [← hwrap]
      · rw [← hwrap]
        simp [wrapDepth]
  · intro collector f
    by_cases h : f.sdkWrapped <;> simp [collector_instrument_function, h]

/-- C4 witness: the single-wrap conjunct at a concrete one-method class. -/
theorem C4_wrapping_idempotent_witness :
    ∃ m0, (("m" : String), m0) ∈
        (⟨false, [("m", MethodCode.base 0)]⟩ : PyClassT).methods ∧
      MethodCode.classWrapped none (MethodCode.base 0)
        = MethodCode.classWrapped none m0 ∧
      wrapDepth (MethodCode.classWrapped none (MethodCode.base 0))
        = wrapDepth m0 + 1 :=
  C4_wrapping_idempotent.2.1 ⟨false, [("m", MethodCode.base 0)]⟩ none
    ("m", MethodCode.classWrapped none (MethodCode.base 0))
    rfl (by decide) (by decide)

/-- C5: with no sink resolvable anywhere — so in particular no `_telemetry`
attribute on the wrapped callable, the only binding point the function
wrapper reads — the wrapped callable executes the original call unmodified
with zero telemetry events: wrapping `add` and calling it on `(2, 3)` yields
`5` with an empty event trace, and in general any outcome passes through
untouched. -/
theorem C5_no_sink_plain_execution :
    function_wrapper none "add" "mod" none (.ok (2 + 3 : Int)) = (.ok 5, []) ∧
    ∀ {α : Type} (fnName fnModule : String) (nameOv : Option String)
      (out : Except PyExc α),
      function_wrapper none fnName fnModule nameOv out = (out, []) :=
  ⟨rfl, fun _ _ _ _ => rfl⟩

/-- C6: a class-instrumented method `Svc.boom` that raises
`KeyError("missing")` under a bound working sink propagates that same
`KeyError("missing")` to the caller, and the sink calls counter
`Svc.boom.calls` is incremented exactly once, with `outcome=error`. -/
theorem C6_class_error_counter_once :
    (class_wrapper (some ⟨.tracer, .ok, .ok, true, none⟩) "Svc" "boom" "mod"
        none false (some ⟨none⟩)
        (.error ⟨"KeyError", "missing"⟩ : Except PyExc Int)).1
      = .error ⟨"KeyError", "missing"⟩ ∧
    countErrorInc "Svc.boom.calls"
      (class_wrapper (some ⟨.tracer, .ok, .ok, true, none⟩) "Svc" "boom" "mod"
        none false (some ⟨none⟩)
        (.error ⟨"KeyError", "missing"⟩ : Except PyExc Int)).2 = 1 ∧
    countInc "Svc.boom.calls"
      (class_wrapper (some ⟨.tracer, .ok, .ok, true, none⟩) "Svc" "boom" "mod"
        none false (some ⟨none⟩)
        (.error ⟨"KeyError", "missing"⟩ : Except PyExc Int)).2 = 1 := by
  refine ⟨rfl, ?_, ?_⟩ <;> decide

/-- C7: for every wrapping strategy, the replacement callable carries the
identity metadata of the original — `functools.wraps` copies the attribute
set and `inspect.signature` follows `__wrapped__` — so name, module,
qualified name, doc and observed signature are indistinguishable from the
original callable. -/
theorem C7_metadata_preserved :
    ∀ f : PyCallable,
      ((instrument_function_callable f).meta = f.meta ∧
        observedSignature (instrument_function_callable f)
          = observedSignature f) ∧
      ((class_make_wrapper_callable f).meta = f.meta ∧
        observedSignature (class_make_wrapper_callable f)
          = observedSignature f) ∧
      (∀ isAsync, (sdk_make_wrapper_callable isAsync f).meta = f.meta ∧
        observedSignature (sdk_make_wrapper_callable isAsync f)
          = observedSignature f) :=
  fun _ => ⟨⟨rfl, rfl⟩, ⟨rfl, rfl⟩, fun _ => ⟨rfl, rfl⟩⟩

/-- C8: the claim says that for every method wrapped by
`SifySDKInstrumentor.instrument_class`, the metrics (calls counter, error
counter when failing, duration histogram) and exactly one log emission occur
in the finally-equivalent block once per invocation, with exceptions
re-raised.  The finally block does run exactly once and re-raise, but the
loop variables `counter_name`/`error_counter`/`histogram_name` are read by
the wrapper closures at call time (only `orig` and `mname` are frozen as
default arguments), so every wrapper emits the metric names of the
alphabetically LAST wrapped method.  Evaluated at the failing input — class
`Svc` with public methods `alpha` and `zeta`, invoking `alpha` — the wrapper
increments `Svc.zeta.calls` and `Svc.zeta.errors` once, never touches
`Svc.alpha.calls`, records `Svc.zeta.duration_ms`, while the single log says
`alpha executed` and the exception is re-raised; the async wrapper misnames
identically.  Only for the last wrapped method (e.g. the sole method of a
one-method class) do the names match the invoked method.  This contradicts
the module docstring (`SifyClient.connect.calls → number of calls`) and the
spec; the default-argument freezing of `orig`/`mname` shows the intended
early binding. -/
theorem C8_late_bound_metric_names :
    (sdk_instrumented_call false (some ⟨.tracer, .ok, .ok, true, none⟩) true
        "Svc" [("alpha", false), ("zeta", false)] none "alpha"
        (.error ⟨"RuntimeError", "boom"⟩ : Except PyExc Int)).1
      = .error ⟨"RuntimeError", "boom"⟩ ∧
    countInc "Svc.zeta.calls"
      (sdk_instrumented_call false (some ⟨.tracer, .ok, .ok, true, none⟩) true
        "Svc" [("alpha", false), ("zeta", false)] none "alpha"
        (.error ⟨"RuntimeError", "boom"⟩ : Except PyExc Int)).2 = 1 ∧
    countInc "Svc.alpha.calls"
      (sdk_instrumented_call false (some ⟨.tracer, .ok, .ok, true, none⟩) true
        "Svc" [("alpha", false), ("zeta", false)] none "alpha"
        (.error ⟨"RuntimeError", "boom"⟩ : Except PyExc Int)).2 = 0 ∧
    countInc "Svc.zeta.errors"
      (sdk_instrumented_call false (some ⟨.tracer, .ok, .ok, true, none⟩) true
        "Svc" [("alpha", false), ("zeta", false)] none "alpha"
        (.error ⟨"RuntimeError", "boom"⟩ : Except PyExc Int)).2 = 1 ∧
    countHist "Svc.zeta.duration_ms"
      (sdk_instrumented_call false (some ⟨.tracer, .ok, .ok, true, none⟩) true
        "Svc" [("alpha", false), ("zeta", false)] none "alpha"
        (.error ⟨"RuntimeError", "boom"⟩ : Except PyExc Int)).2 = 1 ∧
    countHist "Svc.alpha.duration_ms"
      (sdk_instrumented_call false (some ⟨.tracer, .ok, .ok, true, none⟩) true
        "Svc" [("alpha", false), ("zeta", false)] none "alpha"
        (.error ⟨"RuntimeError", "boom"⟩ : Except PyExc Int)).2 = 0 ∧
    countLogs
      (sdk_instrumented_call false (some ⟨.tracer, .ok, .ok, true, none⟩) true
        "Svc" [("alpha", false), ("zeta", false)] none "alpha"
        (.error ⟨"RuntimeError", "boom"⟩ : Except PyExc Int)).2 = 1 ∧
    Event.logEmit "error" "alpha executed" ∈
      (sdk_instrumented_call false (some ⟨.tracer, .ok, .ok, true, none⟩) true
        "Svc" [("alpha", false), ("zeta", false)] none "alpha"
        (.error ⟨"RuntimeError", "boom"⟩ : Except PyExc Int)).2 ∧
    countInc "Svc.zeta.calls"
      (sdk_instrumented_call true (some ⟨.tracer, .ok, .ok, true, none⟩) true
        "Svc" [("alpha", false), ("zeta", false)] none "alpha"
        (.ok (1 : Int))).2 = 1 ∧
    countInc "Svc.alpha.calls"
      (sdk_instrumented_call true (some ⟨.tracer, .ok, .ok, true, none⟩) true
        "Svc" [("alpha", false), ("zeta", false)] none "alpha"
        (.ok (1 : Int))).2 = 0 ∧
    countInc "Solo.only.calls"
      (sdk_instrumented_call false (some ⟨.tracer, .ok, .ok, true, none⟩) true
        "Solo" [("only", false)] none "only" (.ok (0 : Int))).2 = 1 := by
  refine ⟨rfl, ?_, ?_, ?_, ?_, ?_, ?_, ?_, ?_, ?_, ?_⟩ <;> decide

/-- C9 counterexample: the claim says resolution checks instance, callable,
inner callable, then a process-wide default, yielding none only when all four
tiers fail.  In the class wrapper, an instance whose `_telemetry` attribute
is present but `None` resolves to no sink at all — the original runs with
zero telemetry — even though the instrumentation-time sink (the only
default-like tier the code has) is a fully working sink that the four-tier
algorithm would return. -/
theorem C9_counterexample_null_instance_attr :
    resolveClassSink (some ⟨some none⟩)
      (some ⟨.tracer, .ok, .ok, true, none⟩) = none ∧
    resolveSinkSpec (some none) none none
      (some ⟨.tracer, .ok, .ok, true, none⟩)
      = some ⟨.tracer, .ok, .ok, true, none⟩ ∧
    class_wrapper (some ⟨.tracer, .ok, .ok, true, none⟩) "C" "m" "mod"
      none false (some ⟨some none⟩) (.ok (7 : Int)) = (.ok 7, []) :=
  ⟨rfl, rfl, rfl⟩

/-- C9 (amended): sink resolution is two-point, not four-tier.  The class
wrapper resolves through the instance alone when one is present — storing the
instrumentation-time sink on an instance that lacks the attribute, and
returning whatever the attribute holds (including `None`, with no fall
through) — and uses the instrumentation-time sink only when there is no
instance; the resolved sink is always one of those two sources.  The function
wrapper reads only the `_telemetry` attribute of the wrapper callable itself:
with nothing attached there, the original call runs with zero telemetry.
No inner-callable or process-wide-default tier exists. -/
theorem C9_amended_two_point_resolution :
    (∀ telemetry, resolveClassSink none telemetry = telemetry) ∧
    (∀ i telemetry, i.teleAttr = none →
        resolveClassSink (some i) telemetry = telemetry ∧
        bindInstance (some i) telemetry = some ⟨some telemetry⟩) ∧
    (∀ i v telemetry, i.teleAttr = some v →
        resolveClassSink (some i) telemetry = v) ∧
    (∀ inst telemetry, resolveClassSink inst telemetry = telemetry ∨
        ∃ i v, inst = some i ∧ i.teleAttr = some v ∧
          resolveClassSink inst telemetry = v) ∧
    (∀ {α : Type} (fnName fnModule : String) (nameOv : Option String)
        (out : Except PyExc α),
        function_wrapper none fnName fnModule nameOv out = (out, [])) := by
  refine ⟨fun _ => rfl, ?_, ?_, ?_, fun _ _ _ _ => rfl⟩
  · intro i telemetry h
    cases i
    subst h
    exact ⟨rfl, rfl⟩
  · intro i v telemetry h
    cases i
    subst h
    rfl
  · intro inst telemetry
    match inst with
    | none => exact Or.inl rfl
    | some ⟨none⟩ => exact Or.inl rfl
    | some ⟨some v⟩ => exact Or.inr ⟨⟨some v⟩, v, rfl, rfl, rfl⟩

/-- C9 amended witness: a present instance attribute wins over the
instrumentation-time sink. -/
theorem C9_amended_two_point_resolution_witness :
    resolveClassSink (some ⟨some (some ⟨.tracer, .ok, .ok, true, none⟩)⟩) none
      = some ⟨.tracer, .ok, .ok, true, none⟩ :=
  C9_amended_two_point_resolution.2.2.1 ⟨some (some ⟨.tracer, .ok, .ok, true, none⟩)⟩
    (some ⟨.tracer, .ok, .ok, true, none⟩) none rfl

/-- C10 counterexample: the claim says a wrapped function emits no telemetry
of any kind whenever `should_trace` is false for the call.  A telemetry
object with `enable_traces = False` makes `should_trace` false for every
context, yet the function wrapper — which never consults `should_trace` —
still runs the full envelope and increments the calls counter. -/
theorem C10_counterexample_function_ignores_rules :
    should_trace ⟨.tracer, .ok, .ok, false, none⟩ ⟨some "business", "f"⟩ = false ∧
    countInc "telemetry.function.f.calls"
      (function_wrapper (some ⟨.tracer, .ok, .ok, false, none⟩) "f" "mod" none
        (.ok (0 : Int))).2 = 1 := by
  constructor <;> decide

/-- C10 (amended): the class wrapper runs the original with zero telemetry
of any kind — no counter, histogram or log, even with working metrics and
logs components — whenever the resolved telemetry is absent, its `traces`
attribute is absent, or `should_trace` rejects the call; the function wrapper
does so whenever its attached telemetry is absent or lacks a `traces.tracer`,
but it does not consult `should_trace`. -/
theorem C10_amended_gating_no_telemetry :
    (∀ {α : Type} (t : Telemetry) (fnName fnModule : String)
        (nameOv : Option String) (out : Except PyExc α),
        t.traces ≠ .tracer →
        function_wrapper (some t) fnName fnModule nameOv out = (out, [])) ∧
    (∀ {α : Type} telemetry clsName mname modName userId reqCtx inst
        (out : Except PyExc α),
        resolveClassSink inst telemetry = none →
        class_wrapper telemetry clsName mname modName userId reqCtx inst out
          = (out, [])) ∧
    (∀ {α : Type} telemetry (t : Telemetry) clsName mname modName userId
        reqCtx inst (out : Except PyExc α),
        resolveClassSink inst telemetry = some t → t.traces = .absent →
        class_wrapper telemetry clsName mname modName userId reqCtx inst out
          = (out, [])) ∧
    (∀ {α : Type} telemetry (t : Telemetry) clsName mname modName userId
        reqCtx inst (out : Except PyExc α),
        resolveClassSink inst telemetry = some t →
        should_trace t ⟨some "business", mname⟩ = false →
        class_wrapper telemetry clsName mname modName userId reqCtx inst out
          = (out, [])) := by
  refine ⟨?_, ?_, ?_, ?_⟩
  · intro α t fnName fnModule nameOv out h
    simp [function_wrapper, h]
  · intro α telemetry clsName mname modName userId reqCtx inst out h
    simp [class_wrapper, h]
  · intro α telemetry t clsName mname modName userId reqCtx inst out h habs
    simp [class_wrapper, h, habs]
  · intro α telemetry t clsName mname modName userId reqCtx inst out h hst
    by_cases habs : t.traces = .absent <;> simp [class_wrapper, h, habs, hst]

/-- C10 amended witness: a sink with working metrics and logs but no traces
attribute still yields a plain call with an empty event trace. -/
theorem C10_amended_gating_no_telemetry_witness :
    function_wrapper (some ⟨.absent, .ok, .ok, true, none⟩) "f" "mod" none
      (.ok (3 : Int)) = (.ok 3, []) :=
  C10_amended_gating_no_telemetry.1 ⟨.absent, .ok, .ok, true, none⟩
    "f" "mod" none (.ok (3 : Int)) (by decide)

end Sify
